import Mathlib

/-!
Shallow embedding of the appointment/schedule subsystem of the
certerusGarage backend (NestJS/TypeORM), centred on
`AppointmentsService` (appointments.service, `src/unnamed/part_007`) and
`AppointmentsController` (`src/src/appointments/appointments.controller.ts`).

Persisted stores (users, vehicles, schedules, appointments, notifications)
are modelled as lists inside a single `GarageState`; every mutating
operation returns the pair of its result (`Except HttpError α`, mirroring
thrown Nest exceptions) and the state reached when it returned or threw,
so that effects performed before a throw are preserved exactly as in the
source.  An `events` log records each write in chronological order, which
lets ordering-of-effects claims be stated.  JavaScript truthiness tests on
optional numbers and strings (`if (clientId)`, `if (status)`,
`if (!rejectionReason)`) are modelled by `natTruthy` / `strTruthy`.
-/

/-- Role string constants (common/constants/role.constant, values as used
throughout the source and the repository docs). -/
def ROLE.CLIENT : String := "client"

/-- Role string constant for mechanics. -/
def ROLE.MECHANIC : String := "mechanic"

/-- Role string constant for admins. -/
def ROLE.ADMIN : String := "admin"

/-- Appointment status enumeration (common/constants/appointment-status.constant):
exactly the three statuses `pending`, `accepted`, `rejected`. -/
inductive AppointmentStatus
  | pending
  | accepted
  | rejected
deriving DecidableEq, Repr

/-- The wire/database string of a status (values documented in the
repository's frontend integration guide). -/
def statusStr : AppointmentStatus → String
  | .pending => "pending"
  | .accepted => "accepted"
  | .rejected => "rejected"

/-- Notification type constant (common/constants/notification-type.constant;
exact string values are not load-bearing, only used as opaque tags). -/
def NOTIFICATION_TYPE.APPOINTMENT_CREATED : String := "appointment_created"

/-- Notification type tag for acceptance notifications. -/
def NOTIFICATION_TYPE.APPOINTMENT_ACCEPTED : String := "appointment_accepted"

/-- Notification type tag for rejection notifications. -/
def NOTIFICATION_TYPE.APPOINTMENT_REJECTED : String := "appointment_rejected"

/-- A user row (users/entities/user.entity): only the fields the
appointment subsystem reads. -/
structure User where
  id : Nat
  role : String
deriving DecidableEq, Repr

/-- A vehicle row (vehicles/entities/vehicle.entity): owner foreign key and
licence plate (read for notification messages). -/
structure Vehicle where
  id : Nat
  clientId : Nat
  licensePlate : String
deriving DecidableEq, Repr

/-- A schedule row: a mechanic's available hour slots for one date. -/
structure Schedule where
  id : Nat
  mechanicId : Nat
  date : String
  availableHours : List String
deriving DecidableEq, Repr

/-- An appointment row (appointments/entities/appointment.entity).
Relations are stored as foreign keys; resolved relation objects appear
only in `PopulatedAppointment`. -/
structure Appointment where
  id : Nat
  clientId : Nat
  mechanicId : Nat
  vehicleId : Nat
  scheduleId : Nat
  date : String
  hour : String
  description : String
  status : AppointmentStatus
  rejectionReason : Option String
deriving DecidableEq, Repr

/-- A created notification (notifications subsystem): recipient, opaque
type tag, title, message and the appointment id carried in metadata. -/
structure Notification where
  userId : Nat
  type : String
  title : String
  message : String
  metadataAppointmentId : Nat
deriving DecidableEq, Repr

/-- An appointment together with its resolved relations, as returned by
repository reads with `relations` and by `createAppointment`'s
denormalized response. -/
structure PopulatedAppointment where
  appt : Appointment
  client : Option User
  mechanic : Option User
  vehicle : Option Vehicle
  schedule : Option Schedule
deriving DecidableEq, Repr

/-- Thrown Nest exceptions relevant to this subsystem: NotFoundException,
BadRequestException (validation / state errors) and ForbiddenException
(authorization errors). -/
inductive HttpError
  | notFound (msg : String)
  | badRequest (msg : String)
  | forbidden (msg : String)
deriving DecidableEq, Repr

/-- One persisted write, recorded in chronological order. -/
inductive Event
  | savedAppointment (a : Appointment)
  | deletedAppointment (id : Nat)
  | removedHour (scheduleId : Nat) (hour : String)
  | addedHour (scheduleId : Nat) (hour : String)
  | createdNotification (n : Notification)
deriving DecidableEq, Repr

/-- The whole persisted state of the subsystem. -/
structure GarageState where
  users : List User
  vehicles : List Vehicle
  schedules : List Schedule
  appointments : List Appointment
  notifications : List Notification
  nextAppointmentId : Nat
  events : List Event
deriving DecidableEq, Repr

/-- JavaScript truthiness of an optional number: `undefined` and `0` are
falsy. -/
def natTruthy : Option Nat → Bool
  | some n => n != 0
  | none => false

/-- JavaScript truthiness of an optional string: `undefined` and the empty
string are falsy. -/
def strTruthy : Option String → Bool
  | some st => st != ""
  | none => false

/-- UsersService.findByIdOrThrow (src/src/users/users.service.ts): the user
row, or NotFoundException when absent. -/
def findByIdOrThrow (s : GarageState) (id : Nat) : Except HttpError User :=
  match s.users.find? (fun u => u.id == id) with
  | some u => .ok u
  | none => .error (.notFound ("User with ID " ++ toString id ++ " not found"))

/-- Modelled from the spec: VehiclesService.findOne is not under src; per
the error taxonomy (and the NotFoundException handling of
vehicle-owner.guard.ts) it returns the vehicle row or NotFoundException
when absent. -/
def vehiclesFindOne (s : GarageState) (id : Nat) : Except HttpError Vehicle :=
  match s.vehicles.find? (fun v => v.id == id) with
  | some v => .ok v
  | none => .error (.notFound ("Vehicle with ID " ++ toString id ++ " not found"))

/-- Modelled from the spec: SchedulesService.getScheduleById is not under
src; it fails with NotFound if the schedule is absent and otherwise
returns the full slot list. -/
def getScheduleById (s : GarageState) (id : Nat) : Except HttpError Schedule :=
  match s.schedules.find? (fun sc => sc.id == id) with
  | some sc => .ok sc
  | none => .error (.notFound "Horario no encontrado")

/-- Modelled from the spec: SchedulesService.removeHourFromSchedule is not
under src; it fails with NotFound if the schedule does not exist and
otherwise removes the hour from the schedule's available set if present. -/
def removeHourFromSchedule (s : GarageState) (scheduleId : Nat) (hour : String) :
    Except HttpError GarageState :=
  match s.schedules.find? (fun sc => sc.id == scheduleId) with
  | none => .error (.notFound "Horario no encontrado")
  | some _ => .ok { s with
      schedules := s.schedules.map (fun sc =>
        if sc.id == scheduleId then
          { sc with availableHours := sc.availableHours.filter (fun h => h != hour) }
        else sc),
      events := s.events ++ [.removedHour scheduleId hour] }

/-- Modelled from the spec: SchedulesService.addHourToSchedule is not under
src; it fails with NotFound if the schedule does not exist and otherwise
re-inserts the hour into the available set without duplicating it. -/
def addHourToSchedule (s : GarageState) (scheduleId : Nat) (hour : String) :
    Except HttpError GarageState :=
  match s.schedules.find? (fun sc => sc.id == scheduleId) with
  | none => .error (.notFound "Horario no encontrado")
  | some _ => .ok { s with
      schedules := s.schedules.map (fun sc =>
        if sc.id == scheduleId then
          (if sc.availableHours.contains hour then sc
           else { sc with availableHours := sc.availableHours ++ [hour] })
        else sc),
      events := s.events ++ [.addedHour scheduleId hour] }

/-- Modelled from the spec: NotificationsService.createNotification is not
under src; it is a fire-and-forget sink that records the notification. -/
def createNotification (s : GarageState) (n : Notification) : GarageState :=
  { s with
    notifications := s.notifications ++ [n],
    events := s.events ++ [.createdNotification n] }

/-- Repository create + save of a fresh appointment: the generated id is
assigned and the row appended. -/
def saveNewAppointment (s : GarageState) (a : Appointment) : Appointment × GarageState :=
  let saved := { a with id := s.nextAppointmentId }
  (saved,
   { s with
     appointments := s.appointments ++ [saved],
     nextAppointmentId := s.nextAppointmentId + 1,
     events := s.events ++ [.savedAppointment saved] })

/-- Repository save of an already-persisted appointment: the row with the
same id is replaced. -/
def saveAppointment (s : GarageState) (a : Appointment) : GarageState :=
  { s with
    appointments := s.appointments.map (fun b => if b.id == a.id then a else b),
    events := s.events ++ [.savedAppointment a] }

/-- Repository delete by id. -/
def deleteAppointmentRecord (s : GarageState) (id : Nat) : GarageState :=
  { s with
    appointments := s.appointments.filter (fun a => a.id != id),
    events := s.events ++ [.deletedAppointment id] }

/-- Repository findOne by id with relations loaded, shared by
getAppointmentById / updateAppointment / accept / reject. -/
def findAppointmentWithRelations (s : GarageState) (id : Nat) :
    Option PopulatedAppointment :=
  match s.appointments.find? (fun a => a.id == id) with
  | none => none
  | some a => some
      { appt := a,
        client := s.users.find? (fun u => u.id == a.clientId),
        mechanic := s.users.find? (fun u => u.id == a.mechanicId),
        vehicle := s.vehicles.find? (fun v => v.id == a.vehicleId),
        schedule := s.schedules.find? (fun sc => sc.id == a.scheduleId) }

/-- Body of POST /appointments (dto/create-appointment.dto). -/
structure CreateAppointmentDto where
  mechanicId : Nat
  vehicleId : Nat
  scheduleId : Nat
  hour : String
  date : String
  description : String
deriving DecidableEq, Repr

/-- Body of PATCH /appointments/:id (dto/update-appointment.dto): optional
status (typed by the three-valued AppointmentStatus union) and optional
rejection reason. -/
structure UpdateAppointmentDto where
  status : Option AppointmentStatus := none
  rejectionReason : Option String := none
deriving DecidableEq, Repr

/-- Body of the dedicated reject operation (dto/reject-appointment.dto). -/
structure RejectAppointmentDto where
  rejectionReason : String
deriving DecidableEq, Repr

/-- AppointmentsService.createAppointment: validates mechanic role, vehicle
ownership and slot availability, then persists the pending appointment,
consumes the slot, notifies the mechanic, and returns the denormalized
appointment. -/
def createAppointment (s : GarageState) (clientId : Nat) (dto : CreateAppointmentDto) :
    Except HttpError PopulatedAppointment × GarageState :=
  match findByIdOrThrow s dto.mechanicId with
  | .error e => (.error e, s)
  | .ok mechanic =>
    if mechanic.role != ROLE.MECHANIC then
      (.error (.badRequest "El usuario seleccionado no es un mecánico"), s)
    else
      match vehiclesFindOne s dto.vehicleId with
      | .error e => (.error e, s)
      | .ok vehicle =>
        if vehicle.clientId != clientId then
          (.error (.forbidden "No puedes agendar citas para vehículos que no te pertenecen"), s)
        else
          match findByIdOrThrow s clientId with
          | .error e => (.error e, s)
          | .ok client =>
            match getScheduleById s dto.scheduleId with
            | .error e => (.error e, s)
            | .ok schedule =>
              if !schedule.availableHours.contains dto.hour then
                (.error (.badRequest "La hora seleccionada no está disponible"), s)
              else
                let (savedAppointment, s1) := saveNewAppointment s
                  { id := 0, clientId := clientId, mechanicId := dto.mechanicId,
                    vehicleId := dto.vehicleId, scheduleId := dto.scheduleId,
                    date := dto.date, hour := dto.hour, description := dto.description,
                    status := .pending, rejectionReason := none }
                match removeHourFromSchedule s1 dto.scheduleId dto.hour with
                | .error e => (.error e, s1)
                | .ok s2 =>
                  let s3 := createNotification s2
                    { userId := dto.mechanicId,
                      type := NOTIFICATION_TYPE.APPOINTMENT_CREATED,
                      title := "Nueva Cita Agendada",
                      message := "El cliente ha agendado una cita para el vehículo " ++
                        vehicle.licensePlate ++ " el " ++ dto.date ++ " a las " ++ dto.hour,
                      metadataAppointmentId := savedAppointment.id }
                  (.ok { appt := savedAppointment, client := some client,
                         mechanic := some mechanic, vehicle := some vehicle,
                         schedule := some schedule }, s3)

/-- The TypeORM where-object built by AppointmentsService.findAll. -/
structure WhereOpts where
  clientId : Option Nat := none
  mechanicId : Option Nat := none
  status : Option String := none
  date : Option String := none
deriving DecidableEq, Repr

/-- Whether an appointment row matches the where-object (conjunction of the
present equality filters). -/
def matchesWhere (w : WhereOpts) (a : Appointment) : Bool :=
  (match w.clientId with | some c => a.clientId == c | none => true) &&
  (match w.mechanicId with | some m => a.mechanicId == m | none => true) &&
  (match w.status with | some st => statusStr a.status == st | none => true) &&
  (match w.date with | some d => a.date == d | none => true)

/-- The where-object construction of AppointmentsService.findAll: role
pinning first, then the truthiness-guarded query-filter overrides. -/
def buildWhere (userId : Nat) (userRole : String) (status : Option String)
    (clientId : Option Nat) (mechanicId : Option Nat) (date : Option String) : WhereOpts :=
  let w : WhereOpts := {}
  let w := if userRole == ROLE.CLIENT then { w with clientId := some userId }
    else if userRole == ROLE.MECHANIC then { w with mechanicId := some userId }
    else w
  let w := if natTruthy clientId && userRole != ROLE.CLIENT then { w with clientId := clientId } else w
  let w := if natTruthy mechanicId && userRole != ROLE.MECHANIC then { w with mechanicId := mechanicId } else w
  let w := if strTruthy status then { w with status := status } else w
  let w := if strTruthy date then { w with date := date } else w
  w

/-- The ORDER BY relation of findAll: date ascending, then hour ascending
(string comparison). -/
def appointmentOrder (a b : Appointment) : Prop :=
  a.date < b.date ∨ (a.date = b.date ∧ a.hour ≤ b.hour)

instance : DecidableRel appointmentOrder := fun a b =>
  inferInstanceAs (Decidable (a.date < b.date ∨ (a.date = b.date ∧ a.hour ≤ b.hour)))

instance : IsTotal Appointment appointmentOrder where
  total a b := by
    rcases lt_trichotomy a.date b.date with h | h | h
    · exact Or.inl (Or.inl h)
    · rcases le_total a.hour b.hour with h2 | h2
      · exact Or.inl (Or.inr ⟨h, h2⟩)
      · exact Or.inr (Or.inr ⟨h.symm, h2⟩)
    · exact Or.inr (Or.inl h)

instance : IsTrans Appointment appointmentOrder where
  trans a b c hab hbc := by
    rcases hab with h1 | ⟨e1, l1⟩ <;> rcases hbc with h2 | ⟨e2, l2⟩
    · exact Or.inl (lt_trans h1 h2)
    · exact Or.inl (by rw [← e2]; exact h1)
    · exact Or.inl (by rw [e1]; exact h2)
    · exact Or.inr ⟨e1.trans e2, le_trans l1 l2⟩

/-- AppointmentsService.findAll: role scoping, optional filters, then the
find with ORDER BY date ASC, hour ASC (modelled as a sort by
appointmentOrder of the matching rows). -/
def findAll (s : GarageState) (userId : Nat) (userRole : String) (status : Option String)
    (clientId : Option Nat) (mechanicId : Option Nat) (date : Option String) : List Appointment :=
  List.insertionSort appointmentOrder
    (s.appointments.filter (matchesWhere (buildWhere userId userRole status clientId mechanicId date)))

/-- AppointmentsService.updateAppointment: the generic PATCH status-update
path. Checks existence, actor identity per role, pending status and the
rejection-reason requirement, then persists the requested status and
reason. It performs no slot restoration and enqueues no notification. -/
def updateAppointment (s : GarageState) (appointmentId : Nat) (userId : Nat)
    (userRole : String) (dto : UpdateAppointmentDto) :
    Except HttpError Appointment × GarageState :=
  match findAppointmentWithRelations s appointmentId with
  | none => (.error (.notFound "Cita no encontrada"), s)
  | some p =>
    let appointment := p.appt
    if userRole == ROLE.MECHANIC && appointment.mechanicId != userId then
      (.error (.forbidden "No puedes modificar citas que no te han sido asignadas"), s)
    else if userRole == ROLE.CLIENT && appointment.clientId != userId then
      (.error (.forbidden "No puedes modificar citas que no te pertenecen"), s)
    else if appointment.status != .pending then
      (.error (.badRequest "Only pending appointments can be modified"), s)
    else if dto.status == some .rejected && !strTruthy dto.rejectionReason then
      (.error (.badRequest "Rejection reason is required when rejecting an appointment"), s)
    else
      let appointment := match dto.status with
        | some st => { appointment with status := st }
        | none => appointment
      let appointment := if strTruthy dto.rejectionReason then
          { appointment with rejectionReason := dto.rejectionReason }
        else appointment
      (.ok appointment, saveAppointment s appointment)

/-- AppointmentsService.updateAppointmentStatus: mechanic-only variant of
the generic update path; same checks with the actor compared against the
assigned mechanic, same persistence, no slot restoration, no
notification. -/
def updateAppointmentStatus (s : GarageState) (appointmentId : Nat) (mechanicId : Nat)
    (dto : UpdateAppointmentDto) : Except HttpError Appointment × GarageState :=
  match findAppointmentWithRelations s appointmentId with
  | none => (.error (.notFound "Cita no encontrada"), s)
  | some p =>
    let appointment := p.appt
    if appointment.mechanicId != mechanicId then
      (.error (.forbidden "No puedes modificar citas que no te han sido asignadas"), s)
    else if appointment.status != .pending then
      (.error (.badRequest "Only pending appointments can be modified"), s)
    else if dto.status == some .rejected && !strTruthy dto.rejectionReason then
      (.error (.badRequest "Rejection reason is required when rejecting an appointment"), s)
    else
      let appointment := match dto.status with
        | some st => { appointment with status := st }
        | none => appointment
      let appointment := if strTruthy dto.rejectionReason then
          { appointment with rejectionReason := dto.rejectionReason }
        else appointment
      (.ok appointment, saveAppointment s appointment)

/-- AppointmentsService.acceptAppointment: dedicated acceptance operation;
persists the accepted status and notifies the client. A null vehicle
relation would crash in the source when building the message; it is
modelled as an empty plate, affecting only the message text. -/
def acceptAppointment (s : GarageState) (appointmentId : Nat) (mechanicId : Nat) :
    Except HttpError Appointment × GarageState :=
  match findAppointmentWithRelations s appointmentId with
  | none => (.error (.notFound "Appointment not found"), s)
  | some p =>
    let appointment := p.appt
    if appointment.mechanicId != mechanicId then
      (.error (.forbidden "You cannot modify appointments that have not been assigned to you"), s)
    else if appointment.status != .pending then
      (.error (.badRequest "Only pending appointments can be accepted"), s)
    else
      let appointment := { appointment with status := .accepted }
      let s1 := saveAppointment s appointment
      let plate := (p.vehicle.map Vehicle.licensePlate).getD ""
      let s2 := createNotification s1
        { userId := appointment.clientId,
          type := NOTIFICATION_TYPE.APPOINTMENT_ACCEPTED,
          title := "Cita Aceptada",
          message := "Tu cita para el vehículo " ++ plate ++ " ha sido aceptada por el mecánico",
          metadataAppointmentId := appointment.id }
      (.ok appointment, s2)

/-- AppointmentsService.rejectAppointment: dedicated rejection operation;
persists the rejected status and reason, restores the hour to the
schedule, and notifies the client naming the reason. -/
def rejectAppointment (s : GarageState) (appointmentId : Nat) (mechanicId : Nat)
    (dto : RejectAppointmentDto) : Except HttpError Appointment × GarageState :=
  match findAppointmentWithRelations s appointmentId with
  | none => (.error (.notFound "Cita no encontrada"), s)
  | some p =>
    let appointment := p.appt
    if appointment.mechanicId != mechanicId then
      (.error (.forbidden "No puedes modificar citas que no te han sido asignadas"), s)
    else if appointment.status != .pending then
      (.error (.badRequest "Solo las citas pendientes pueden ser rechazadas"), s)
    else
      let appointment := { appointment with
        status := .rejected
        rejectionReason := some dto.rejectionReason }
      let s1 := saveAppointment s appointment
      match addHourToSchedule s1 appointment.scheduleId appointment.hour with
      | .error e => (.error e, s1)
      | .ok s2 =>
        let s3 := createNotification s2
          { userId := appointment.clientId,
            type := NOTIFICATION_TYPE.APPOINTMENT_REJECTED,
            title := "Cita Rechazada",
            message := "Tu cita ha sido rechazada. Razón: " ++ dto.rejectionReason,
            metadataAppointmentId := appointment.id }
        (.ok appointment, s3)

/-- AppointmentsService.getAppointmentById: findOne with relations, or
NotFound. Read-only. -/
def getAppointmentById (s : GarageState) (id : Nat) : Except HttpError PopulatedAppointment :=
  match findAppointmentWithRelations s id with
  | some p => .ok p
  | none => .error (.notFound "Cita no encontrada")

/-- AppointmentsService.deleteAppointment: client-initiated cancellation;
checks existence, ownership, and pending-or-accepted status, then deletes
the record and restores the hour to the schedule. -/
def deleteAppointment (s : GarageState) (id : Nat) (userId : Nat) :
    Except HttpError Unit × GarageState :=
  match getAppointmentById s id with
  | .error e => (.error e, s)
  | .ok p =>
    let appointment := p.appt
    if appointment.clientId != userId then
      (.error (.forbidden "No puedes cancelar citas que no te pertenecen"), s)
    else if appointment.status != .pending && appointment.status != .accepted then
      (.error (.badRequest "Solo las citas pendientes o aceptadas pueden ser canceladas"), s)
    else
      let s1 := deleteAppointmentRecord s id
      match addHourToSchedule s1 appointment.scheduleId appointment.hour with
      | .error e => (.error e, s1)
      | .ok s2 => (.ok (), s2)

/-- The authenticated requester carried by the JWT guard
(auth/interfaces/auth-request.interface). -/
structure AuthUser where
  sub : Nat
  role : String
deriving DecidableEq, Repr

/-- AppointmentsController.getAppointment (GET /appointments/:id): guarded
only by JWT authentication; the requester identity is not consulted. -/
def controllerGetAppointment (_req : AuthUser) (id : Nat) (s : GarageState) :
    Except HttpError PopulatedAppointment :=
  getAppointmentById s id

/-- AppointmentsController.updateAppointment (PATCH /appointments/:id):
forwards the requester id and role to the service's generic update path. -/
def controllerUpdateAppointment (req : AuthUser) (id : Nat)
    (dto : UpdateAppointmentDto) (s : GarageState) :
    Except HttpError Appointment × GarageState :=
  updateAppointment s id req.sub req.role dto

deriving instance DecidableEq for Except

/-- Fixture: the assigned mechanic. -/
def mechUser : User := { id := 2, role := ROLE.MECHANIC }

/-- Fixture: the requesting client who owns the vehicle. -/
def clientUser : User := { id := 3, role := ROLE.CLIENT }

/-- Fixture: an unrelated client. -/
def otherClient : User := { id := 7, role := ROLE.CLIENT }

/-- Fixture: the client's vehicle. -/
def fixtureVehicle : Vehicle := { id := 5, clientId := 3, licensePlate := "ABC123" }

/-- Fixture: the mechanic's schedule before any booking. -/
def openSchedule : Schedule :=
  { id := 1, mechanicId := 2, date := "2026-01-22", availableHours := ["09:00", "10:00"] }

/-- Fixture: the same schedule after the 10:00 slot was consumed. -/
def bookedSchedule : Schedule :=
  { id := 1, mechanicId := 2, date := "2026-01-22", availableHours := ["09:00"] }

/-- Fixture: a pending appointment booked by client 3 with mechanic 2. -/
def pendingAppt : Appointment :=
  { id := 1, clientId := 3, mechanicId := 2, vehicleId := 5, scheduleId := 1,
    date := "2026-01-22", hour := "10:00", description := "oil change",
    status := .pending, rejectionReason := none }

/-- Fixture: state before any booking. -/
def baseState : GarageState :=
  { users := [mechUser, clientUser, otherClient], vehicles := [fixtureVehicle],
    schedules := [openSchedule], appointments := [], notifications := [],
    nextAppointmentId := 1, events := [] }

/-- Fixture: state right after the pending appointment was booked (event log
cleared to focus on subsequent operations). -/
def bookedState : GarageState :=
  { baseState with schedules := [bookedSchedule], appointments := [pendingAppt],
                   nextAppointmentId := 2 }

/-- Fixture: as bookedState but the appointment was accepted. -/
def acceptedState : GarageState :=
  { bookedState with appointments := [{ pendingAppt with status := .accepted }] }

/-- Fixture: as bookedState but the appointment was rejected. -/
def rejectedState : GarageState :=
  { bookedState with appointments :=
      [{ pendingAppt with status := .rejected, rejectionReason := some "busy" }] }

/-- Fixture: state with no users at all (requests referencing user 2 hit the
NotFound branch of findByIdOrThrow). -/
def emptyUsersState : GarageState := { baseState with users := [] }

/-- Fixture: the booking request for the 10:00 slot. -/
def createDto : CreateAppointmentDto :=
  { mechanicId := 2, vehicleId := 5, scheduleId := 1, hour := "10:00",
    date := "2026-01-22", description := "oil change" }

/-- Fixture: a PATCH body rejecting with a reason. -/
def rejectDto : UpdateAppointmentDto :=
  { status := some .rejected, rejectionReason := some "No hay repuestos" }

theorem findAppointmentWithRelations_none (s : GarageState) (id : Nat)
    (h : s.appointments.find? (fun a => a.id == id) = none) :
    findAppointmentWithRelations s id = none := by
  simp [findAppointmentWithRelations, h]

theorem findAppointmentWithRelations_some (s : GarageState) (id : Nat) (a : Appointment)
    (h : s.appointments.find? (fun a => a.id == id) = some a) :
    findAppointmentWithRelations s id = some
      { appt := a,
        client := s.users.find? (fun u => u.id == a.clientId),
        mechanic := s.users.find? (fun u => u.id == a.mechanicId),
        vehicle := s.vehicles.find? (fun v => v.id == a.vehicleId),
        schedule := s.schedules.find? (fun sc => sc.id == a.scheduleId) } := by
  simp [findAppointmentWithRelations, h]

theorem getScheduleById_ok_find (s : GarageState) (id : Nat) (sc : Schedule)
    (h : getScheduleById s id = .ok sc) :
    s.schedules.find? (fun x => x.id == id) = some sc := by
  unfold getScheduleById at h
  split at h <;> simp_all

theorem removeHourFromSchedule_error (s : GarageState) (sid : Nat) (hour : String)
    (e : HttpError) (h : removeHourFromSchedule s sid hour = .error e) :
    s.schedules.find? (fun x => x.id == sid) = none := by
  unfold removeHourFromSchedule at h
  split at h <;> simp_all

/-- C10: fetching a single appointment by id performs no ownership or role
check: the controller's GET :id handler ignores the requester entirely;
any requester receives the stored appointment with its resolved client,
mechanic, vehicle and schedule relations when the id exists, and the
operation fails with NotFound exactly when no appointment with that id
exists. -/
theorem c10_get_by_id_no_ownership_check (s : GarageState) (id : Nat) (req req2 : AuthUser) :
    controllerGetAppointment req id s = controllerGetAppointment req2 id s ∧
    (∀ a, s.appointments.find? (fun x => x.id == id) = some a →
      controllerGetAppointment req id s = .ok
        { appt := a,
          client := s.users.find? (fun u => u.id == a.clientId),
          mechanic := s.users.find? (fun u => u.id == a.mechanicId),
          vehicle := s.vehicles.find? (fun v => v.id == a.vehicleId),
          schedule := s.schedules.find? (fun sc => sc.id == a.scheduleId) }) ∧
    (s.appointments.find? (fun x => x.id == id) = none →
      controllerGetAppointment req id s = .error (.notFound "Cita no encontrada")) := by
  refine ⟨rfl, ?_, ?_⟩
  · intro a ha
    simp [controllerGetAppointment, getAppointmentById,
      findAppointmentWithRelations_some s id a ha]
  · intro ha
    simp [controllerGetAppointment, getAppointmentById,
      findAppointmentWithRelations_none s id ha]

theorem c10_witness :
    controllerGetAppointment { sub := 7, role := ROLE.CLIENT } 1 bookedState =
      controllerGetAppointment { sub := 99, role := ROLE.ADMIN } 1 bookedState ∧
    controllerGetAppointment { sub := 7, role := ROLE.CLIENT } 1 bookedState = .ok
      { appt := pendingAppt, client := some clientUser, mechanic := some mechUser,
        vehicle := some fixtureVehicle, schedule := some bookedSchedule } :=
  ⟨(c10_get_by_id_no_ownership_check bookedState 1
      { sub := 7, role := ROLE.CLIENT } { sub := 99, role := ROLE.ADMIN }).1,
   ((c10_get_by_id_no_ownership_check bookedState 1
      { sub := 7, role := ROLE.CLIENT } { sub := 99, role := ROLE.ADMIN }).2.1
      pendingAppt (by decide)).trans (by decide)⟩

/-- C9: createAppointment is atomic on failure: whenever it throws (the
mechanic is missing or not a mechanic, the vehicle is missing or not owned
by the requester, the client or schedule is missing, or the hour is not
available), the resulting state is exactly the input state: no appointment
persisted, schedules untouched, no notification enqueued, no write event. -/
theorem c9_create_atomic_on_failure (s : GarageState) (cid : Nat)
    (dto : CreateAppointmentDto) (e : HttpError) (s' : GarageState)
    (h : createAppointment s cid dto = (.error e, s')) :
    s' = s := by
  unfold createAppointment at h
  simp only [saveNewAppointment] at h
  repeat' split at h
  all_goals try simp_all
  all_goals
    rename_i hrem
    obtain ⟨-, hs⟩ := h
    subst hs
    have hsch : ∃ x, getScheduleById s dto.scheduleId = .ok x := ⟨_, by assumption⟩
    obtain ⟨sc, hsch⟩ := hsch
    have hfind := getScheduleById_ok_find s dto.scheduleId sc hsch
    have hnone := removeHourFromSchedule_error _ _ _ _ hrem
    rw [List.find?_eq_none] at hnone
    exact absurd (List.find?_some hfind) (hnone _ (List.mem_of_find?_eq_some hfind))

theorem findAppointmentWithRelations_some_inv (s : GarageState) (id : Nat)
    (p : PopulatedAppointment) (h : findAppointmentWithRelations s id = some p) :
    s.appointments.find? (fun x => x.id == id) = some p.appt := by
  unfold findAppointmentWithRelations at h
  split at h
  · simp at h
  · rename_i a2 ha2
    simp only [Option.some.injEq] at h
    subst h
    exact ha2

theorem addHourToSchedule_ok_mem (s : GarageState) (sid : Nat) (hour : String)
    (s' : GarageState) (h : addHourToSchedule s sid hour = .ok s') :
    ∀ sc ∈ s'.schedules, sc.id = sid → hour ∈ sc.availableHours := by
  unfold addHourToSchedule at h
  split at h
  · simp at h
  · simp only [Except.ok.injEq] at h
    subst h
    intro sc hsc hid
    simp only [List.mem_map] at hsc
    obtain ⟨sc0, -, rfl⟩ := hsc
    by_cases hc : (sc0.id == sid) = true
    · by_cases hm : hour ∈ sc0.availableHours <;> simp [hc, hm]
    · rw [if_neg hc] at hid
      exact absurd hid (by simpa using hc)

theorem addHourToSchedule_ok_components (s : GarageState) (sid : Nat) (hour : String)
    (s' : GarageState) (h : addHourToSchedule s sid hour = .ok s') :
    s'.users = s.users ∧ s'.vehicles = s.vehicles ∧ s'.appointments = s.appointments ∧
    s'.notifications = s.notifications ∧ s'.nextAppointmentId = s.nextAppointmentId ∧
    s'.events = s.events ++ [.addedHour sid hour] := by
  unfold addHourToSchedule at h
  split at h
  · simp at h
  · simp only [Except.ok.injEq] at h
    subst h
    exact ⟨rfl, rfl, rfl, rfl, rfl, rfl⟩

theorem addHourToSchedule_ok_of_find (s : GarageState) (sid : Nat) (hour : String)
    (sc0 : Schedule) (hf : s.schedules.find? (fun x => x.id == sid) = some sc0) :
    addHourToSchedule s sid hour = .ok { s with
      schedules := s.schedules.map (fun sc =>
        if sc.id == sid then
          (if sc.availableHours.contains hour then sc
           else { sc with availableHours := sc.availableHours ++ [hour] })
        else sc),
      events := s.events ++ [.addedHour sid hour] } := by
  simp [addHourToSchedule, hf]

theorem removeHourFromSchedule_ok_not_mem (s : GarageState) (sid : Nat) (hour : String)
    (s' : GarageState) (h : removeHourFromSchedule s sid hour = .ok s') :
    ∀ sc ∈ s'.schedules, sc.id = sid → hour ∉ sc.availableHours := by
  unfold removeHourFromSchedule at h
  split at h
  · simp at h
  · simp only [Except.ok.injEq] at h
    subst h
    intro sc hsc hid
    simp only [List.mem_map] at hsc
    obtain ⟨sc0, -, rfl⟩ := hsc
    by_cases hc : (sc0.id == sid) = true
    · simp [hc]
    · rw [if_neg hc] at hid
      exact absurd hid (by simpa using hc)

theorem removeHourFromSchedule_ok_components (s : GarageState) (sid : Nat) (hour : String)
    (s' : GarageState) (h : removeHourFromSchedule s sid hour = .ok s') :
    s'.users = s.users ∧ s'.vehicles = s.vehicles ∧ s'.appointments = s.appointments ∧
    s'.notifications = s.notifications ∧ s'.nextAppointmentId = s.nextAppointmentId ∧
    s'.events = s.events ++ [.removedHour sid hour] := by
  unfold removeHourFromSchedule at h
  split at h
  · simp at h
  · simp only [Except.ok.injEq] at h
    subst h
    exact ⟨rfl, rfl, rfl, rfl, rfl, rfl⟩

theorem saveAppointment_mem (s : GarageState) (a old : Appointment)
    (hold : old ∈ s.appointments) (hid : old.id = a.id) :
    a ∈ (saveAppointment s a).appointments := by
  simp only [saveAppointment, List.mem_map]
  exact ⟨old, hold, by simp [hid]⟩

theorem updateAppointment_ok_inv (s : GarageState) (id uid : Nat) (role : String)
    (dto : UpdateAppointmentDto) (a : Appointment) (s' : GarageState)
    (h : updateAppointment s id uid role dto = (.ok a, s')) :
    ∃ old, s.appointments.find? (fun x => x.id == id) = some old ∧
      old.status = .pending ∧ s' = saveAppointment s a ∧ a.id = old.id ∧
      a.clientId = old.clientId ∧ a.mechanicId = old.mechanicId ∧
      a.scheduleId = old.scheduleId ∧ a.hour = old.hour ∧
      (∀ st, dto.status = some st → a.status = st) ∧
      (dto.status = none → a.status = old.status) ∧
      (∀ r, dto.rejectionReason = some r → r ≠ "" → a.rejectionReason = some r) := by
  unfold updateAppointment at h
  cases hp : s.appointments.find? (fun x => x.id == id) with
  | none =>
    rw [findAppointmentWithRelations_none s id hp] at h
    exact absurd h (by simp)
  | some aOld =>
    rw [findAppointmentWithRelations_some s id aOld hp] at h
    simp only [] at h
    split at h
    · exact absurd h (by simp)
    · split at h
      · exact absurd h (by simp)
      · split at h
        · exact absurd h (by simp)
        · split at h
          · exact absurd h (by simp)
          · rename_i hc1 hc2 hc3 hc4
            have hpend : aOld.status = .pending := by simpa using hc3
            simp only [Prod.mk.injEq, Except.ok.injEq] at h
            obtain ⟨rfl, rfl⟩ := h
            refine ⟨aOld, rfl, hpend, rfl, ?_, ?_, ?_, ?_, ?_, ?_, ?_, ?_⟩ <;>
              cases hst : dto.status <;> cases hr : dto.rejectionReason <;>
                simp [hst, hr, strTruthy] <;>
                  (try intro hne) <;> (try split) <;> simp_all

theorem rejectAppointment_ok_effects (s : GarageState) (id mid : Nat)
    (rdto : RejectAppointmentDto) (a : Appointment) (s' : GarageState)
    (h : rejectAppointment s id mid rdto = (.ok a, s')) :
    a.status = .rejected ∧ a.rejectionReason = some rdto.rejectionReason ∧
    (∃ old, s.appointments.find? (fun x => x.id == id) = some old ∧ old.status = .pending) ∧
    (∀ sc ∈ s'.schedules, sc.id = a.scheduleId → a.hour ∈ sc.availableHours) ∧
    (∃ n, s'.notifications = s.notifications ++ [n] ∧ n.userId = a.clientId ∧
      n.message = "Tu cita ha sido rechazada. Razón: " ++ rdto.rejectionReason ∧
      n.metadataAppointmentId = a.id) := by
  unfold rejectAppointment at h
  cases hp : s.appointments.find? (fun x => x.id == id) with
  | none =>
    rw [findAppointmentWithRelations_none s id hp] at h
    exact absurd h (by simp)
  | some aOld =>
    rw [findAppointmentWithRelations_some s id aOld hp] at h
    simp only [] at h
    split at h
    · exact absurd h (by simp)
    · split at h
      · exact absurd h (by simp)
      · split at h
        · exact absurd h (by simp)
        · rename_i hc1 hc2 x s2 hadd
          simp only [Prod.mk.injEq, Except.ok.injEq] at h
          obtain ⟨rfl, rfl⟩ := h
          refine ⟨rfl, rfl, ⟨aOld, rfl, by simpa using hc2⟩, ?_, ?_⟩
          · intro sc hsc hid
            exact addHourToSchedule_ok_mem _ _ _ _ hadd sc hsc hid
          · have hcomp := addHourToSchedule_ok_components _ _ _ _ hadd
            refine ⟨{ userId := aOld.clientId,
                      type := NOTIFICATION_TYPE.APPOINTMENT_REJECTED,
                      title := "Cita Rechazada",
                      message := "Tu cita ha sido rechazada. Razón: " ++ rdto.rejectionReason,
                      metadataAppointmentId := aOld.id }, ?_, rfl, rfl, rfl⟩
            simp [createNotification, hcomp.2.2.2.1, saveAppointment]

theorem acceptAppointment_ok_effects (s : GarageState) (id mid : Nat)
    (a : Appointment) (s' : GarageState)
    (h : acceptAppointment s id mid = (.ok a, s')) :
    a.status = .accepted ∧
    (∃ old, s.appointments.find? (fun x => x.id == id) = some old ∧ old.status = .pending) ∧
    s'.schedules = s.schedules ∧
    (∃ n, s'.notifications = s.notifications ++ [n] ∧ n.userId = a.clientId ∧
      n.metadataAppointmentId = a.id) := by
  unfold acceptAppointment at h
  cases hp : s.appointments.find? (fun x => x.id == id) with
  | none =>
    rw [findAppointmentWithRelations_none s id hp] at h
    exact absurd h (by simp)
  | some aOld =>
    rw [findAppointmentWithRelations_some s id aOld hp] at h
    simp only [] at h
    split at h
    · exact absurd h (by simp)
    · split at h
      · exact absurd h (by simp)
      · rename_i hc1 hc2
        simp only [Prod.mk.injEq, Except.ok.injEq] at h
        obtain ⟨rfl, rfl⟩ := h
        refine ⟨rfl, ⟨aOld, rfl, by simpa using hc2⟩, rfl, ?_⟩
        exact ⟨_, rfl, rfl, rfl⟩

/-- C1 counterexample: on the status-update path actually wired to
PATCH /appointments/:id (AppointmentsService.updateAppointment), rejecting
the pending appointment succeeds, yet the 10:00 hour is NOT restored to
the schedule (the available set still lacks it) and NO notification is
enqueued — contradicting the claim that rejection through the
status-update path restores the slot and notifies the client. -/
theorem c1_counterexample :
    (updateAppointment bookedState 1 2 ROLE.MECHANIC rejectDto).1 =
      .ok { pendingAppt with
            status := .rejected
            rejectionReason := some "No hay repuestos" } ∧
    pendingAppt.hour = "10:00" ∧
    (updateAppointment bookedState 1 2 ROLE.MECHANIC rejectDto).2.schedules =
      [bookedSchedule] ∧
    "10:00" ∉ bookedSchedule.availableHours ∧
    (updateAppointment bookedState 1 2 ROLE.MECHANIC rejectDto).2.notifications = [] := by
  decide

/-- C1 amended: the generic status-update path (updateAppointment, the one
reached from the controller's PATCH route) persists the new status and
reason but performs no slot restoration and enqueues no notification for
either target status; the dedicated rejectAppointment operation is the one
that restores the hour to the schedule and enqueues a client-facing
notification naming the reason, and the dedicated acceptAppointment
operation enqueues a client-facing notification with no slot
restoration. -/
theorem c1_status_update_effects (s : GarageState) :
    (∀ id uid role dto a s', updateAppointment s id uid role dto = (.ok a, s') →
      s'.schedules = s.schedules ∧ s'.notifications = s.notifications) ∧
    (∀ id mid rdto a s', rejectAppointment s id mid rdto = (.ok a, s') →
      a.status = .rejected ∧ a.rejectionReason = some rdto.rejectionReason ∧
      (∀ sc ∈ s'.schedules, sc.id = a.scheduleId → a.hour ∈ sc.availableHours) ∧
      ∃ n, s'.notifications = s.notifications ++ [n] ∧ n.userId = a.clientId ∧
        n.message = "Tu cita ha sido rechazada. Razón: " ++ rdto.rejectionReason) ∧
    (∀ id mid a s', acceptAppointment s id mid = (.ok a, s') →
      a.status = .accepted ∧ s'.schedules = s.schedules ∧
      ∃ n, s'.notifications = s.notifications ++ [n] ∧ n.userId = a.clientId) := by
  refine ⟨?_, ?_, ?_⟩
  · intro id uid role dto a s' h
    obtain ⟨old, -, -, rfl, -⟩ := updateAppointment_ok_inv s id uid role dto a s' h
    exact ⟨rfl, rfl⟩
  · intro id mid rdto a s' h
    obtain ⟨h1, h2, -, h4, n, h5, h6, h7, -⟩ :=
      rejectAppointment_ok_effects s id mid rdto a s' h
    exact ⟨h1, h2, h4, n, h5, h6, h7⟩
  · intro id mid a s' h
    obtain ⟨h1, -, h3, n, h4, h5, -⟩ := acceptAppointment_ok_effects s id mid a s' h
    exact ⟨h1, h3, n, h4, h5⟩

theorem c1_witness :
    (updateAppointment bookedState 1 2 ROLE.MECHANIC rejectDto).2.schedules =
      bookedState.schedules ∧
    (updateAppointment bookedState 1 2 ROLE.MECHANIC rejectDto).2.notifications =
      bookedState.notifications ∧
    ({ pendingAppt with
       status := .rejected
       rejectionReason := some "busy" } : Appointment).status = .rejected ∧
    (acceptAppointment bookedState 1 2).2.schedules = bookedState.schedules :=
  ⟨((c1_status_update_effects bookedState).1 1 2 ROLE.MECHANIC rejectDto
      { pendingAppt with status := .rejected, rejectionReason := some "No hay repuestos" }
      (updateAppointment bookedState 1 2 ROLE.MECHANIC rejectDto).2 (by decide)).1,
   ((c1_status_update_effects bookedState).1 1 2 ROLE.MECHANIC rejectDto
      { pendingAppt with status := .rejected, rejectionReason := some "No hay repuestos" }
      (updateAppointment bookedState 1 2 ROLE.MECHANIC rejectDto).2 (by decide)).2,
   ((c1_status_update_effects bookedState).2.1 1 2 { rejectionReason := "busy" }
      { pendingAppt with status := .rejected, rejectionReason := some "busy" }
      (rejectAppointment bookedState 1 2 { rejectionReason := "busy" }).2 (by decide)).1,
   ((c1_status_update_effects bookedState).2.2 1 2
      { pendingAppt with status := .accepted }
      (acceptAppointment bookedState 1 2).2 (by decide)).2.1⟩

theorem c9_witness :
    (createAppointment emptyUsersState 3 createDto).1 =
      .error (.notFound "User with ID 2 not found") ∧
    (createAppointment emptyUsersState 3 createDto).2 = emptyUsersState :=
  ⟨by decide,
   c9_create_atomic_on_failure emptyUsersState 3 createDto
     (.notFound "User with ID 2 not found")
     (createAppointment emptyUsersState 3 createDto).2 (by decide)⟩

/-- C4: the status-update operation checks its preconditions in order:
existence (else NotFound), actor identity per role (a mechanic actor must
be the assigned mechanic, a client actor the owning client, else
Forbidden), pending status (else the state error), and — when the target
status is rejected — a non-empty rejection reason (else a validation
error); when all hold and a non-empty reason is given, the update succeeds
and the reason is persisted verbatim on the stored appointment. -/
theorem c4_update_precondition_order (s : GarageState) (apptId uid : Nat)
    (role : String) (dto : UpdateAppointmentDto) :
    (s.appointments.find? (fun x => x.id == apptId) = none →
      updateAppointment s apptId uid role dto =
        (.error (.notFound "Cita no encontrada"), s)) ∧
    (∀ a, s.appointments.find? (fun x => x.id == apptId) = some a →
      (role = ROLE.MECHANIC → a.mechanicId ≠ uid →
        updateAppointment s apptId uid role dto =
          (.error (.forbidden "No puedes modificar citas que no te han sido asignadas"), s)) ∧
      (role = ROLE.CLIENT → a.clientId ≠ uid →
        updateAppointment s apptId uid role dto =
          (.error (.forbidden "No puedes modificar citas que no te pertenecen"), s)) ∧
      ((role = ROLE.MECHANIC → a.mechanicId = uid) →
       (role = ROLE.CLIENT → a.clientId = uid) →
        (a.status ≠ .pending →
          updateAppointment s apptId uid role dto =
            (.error (.badRequest "Only pending appointments can be modified"), s)) ∧
        (a.status = .pending →
          (dto.status = some .rejected → strTruthy dto.rejectionReason = false →
            updateAppointment s apptId uid role dto =
              (.error (.badRequest "Rejection reason is required when rejecting an appointment"), s)) ∧
          (∀ r, dto.rejectionReason = some r → r ≠ "" →
            ∃ a' s', updateAppointment s apptId uid role dto = (.ok a', s') ∧
              a'.rejectionReason = some r ∧ a' ∈ s'.appointments ∧
              (∀ st, dto.status = some st → a'.status = st))))) := by
  constructor
  · intro hnone
    unfold updateAppointment
    rw [findAppointmentWithRelations_none s apptId hnone]
  · intro a ha
    refine ⟨?_, ?_, ?_⟩
    · intro hrole hne
      unfold updateAppointment
      rw [findAppointmentWithRelations_some s apptId a ha]
      simp [hrole, hne]
    · intro hrole hne
      have hm : (ROLE.CLIENT == ROLE.MECHANIC) = false := by decide
      unfold updateAppointment
      rw [findAppointmentWithRelations_some s apptId a ha]
      simp [hrole, hm, hne]
    · intro hmech hclient
      have hcond1 : (role == ROLE.MECHANIC && a.mechanicId != uid) = false := by
        by_cases hr1 : role = ROLE.MECHANIC
        · simp [hr1, hmech hr1]
        · simp [hr1]
      have hcond2 : (role == ROLE.CLIENT && a.clientId != uid) = false := by
        by_cases hr2 : role = ROLE.CLIENT
        · simp [hr2, hclient hr2]
        · simp [hr2]
      constructor
      · intro hst
        unfold updateAppointment
        rw [findAppointmentWithRelations_some s apptId a ha]
        simp [hcond1, hcond2, hst]
      · intro hpend
        constructor
        · intro hs hrt
          unfold updateAppointment
          rw [findAppointmentWithRelations_some s apptId a ha]
          simp [hcond1, hcond2, hpend, hs, hrt]
        · intro r hr hne
          have hcond3 : (a.status != AppointmentStatus.pending) = false := by
            simp [hpend]
          have hcond4 : (dto.status == some AppointmentStatus.rejected &&
              !strTruthy dto.rejectionReason) = false := by
            simp [strTruthy, hr, hne]
          unfold updateAppointment
          rw [findAppointmentWithRelations_some s apptId a ha]
          simp only [hcond1, hcond2, hcond3, hcond4, Bool.false_eq_true, if_false]
          refine ⟨_, _, rfl, ?_, ?_, ?_⟩
          · cases hst : dto.status <;> simp [hst, strTruthy, hr, hne]
          · refine saveAppointment_mem s _ a (List.mem_of_find?_eq_some ha) ?_
            cases hst : dto.status <;> simp [hst, strTruthy, hr, hne]
          · intro st hstq
            simp [hstq, strTruthy, hr, hne]

theorem c4_witness :
    updateAppointment bookedState 99 2 ROLE.MECHANIC rejectDto =
      (.error (.notFound "Cita no encontrada"), bookedState) ∧
    updateAppointment bookedState 1 9 ROLE.MECHANIC rejectDto =
      (.error (.forbidden "No puedes modificar citas que no te han sido asignadas"),
       bookedState) ∧
    updateAppointment acceptedState 1 2 ROLE.MECHANIC rejectDto =
      (.error (.badRequest "Only pending appointments can be modified"), acceptedState) ∧
    updateAppointment bookedState 1 2 ROLE.MECHANIC
      { status := some .rejected, rejectionReason := none } =
      (.error (.badRequest "Rejection reason is required when rejecting an appointment"),
       bookedState) :=
  ⟨(c4_update_precondition_order bookedState 99 2 ROLE.MECHANIC rejectDto).1 (by decide),
   ((c4_update_precondition_order bookedState 1 9 ROLE.MECHANIC rejectDto).2
      pendingAppt (by decide)).1 rfl (by decide),
   (((c4_update_precondition_order acceptedState 1 2 ROLE.MECHANIC rejectDto).2
      { pendingAppt with status := .accepted } (by decide)).2.2
      (fun _ => rfl) (fun hcl => absurd hcl (by decide))).1 (by decide),
   ((((c4_update_precondition_order bookedState 1 2 ROLE.MECHANIC
      { status := some .rejected, rejectionReason := none }).2
      pendingAppt (by decide)).2.2
      (fun _ => rfl) (fun hcl => absurd hcl (by decide))).2 (by decide)).1 rfl rfl⟩

theorem updateAppointment_nonpending (s : GarageState) (apptId uid : Nat) (role : String)
    (dto : UpdateAppointmentDto) (a : Appointment)
    (ha : s.appointments.find? (fun x => x.id == apptId) = some a)
    (hst : a.status ≠ .pending) :
    (updateAppointment s apptId uid role dto).2 = s ∧
    ∀ a' s'', updateAppointment s apptId uid role dto ≠ (.ok a', s'') := by
  have hres : ∃ e, updateAppointment s apptId uid role dto = (.error e, s) := by
    by_cases h1 : (role == ROLE.MECHANIC && a.mechanicId != uid) = true
    · refine ⟨.forbidden "No puedes modificar citas que no te han sido asignadas", ?_⟩
      unfold updateAppointment
      rw [findAppointmentWithRelations_some s apptId a ha]
      simp [h1]
    · by_cases h2 : (role == ROLE.CLIENT && a.clientId != uid) = true
      · refine ⟨.forbidden "No puedes modificar citas que no te pertenecen", ?_⟩
        unfold updateAppointment
        rw [findAppointmentWithRelations_some s apptId a ha]
        simp [h1, h2]
      · refine ⟨.badRequest "Only pending appointments can be modified", ?_⟩
        unfold updateAppointment
        rw [findAppointmentWithRelations_some s apptId a ha]
        simp [h1, h2, hst]
  obtain ⟨e, he⟩ := hres
  rw [he]
  exact ⟨rfl, by simp⟩

theorem updateAppointmentStatus_nonpending (s : GarageState) (apptId mid : Nat)
    (dto : UpdateAppointmentDto) (a : Appointment)
    (ha : s.appointments.find? (fun x => x.id == apptId) = some a)
    (hst : a.status ≠ .pending) :
    (updateAppointmentStatus s apptId mid dto).2 = s ∧
    ∀ a' s'', updateAppointmentStatus s apptId mid dto ≠ (.ok a', s'') := by
  have hres : ∃ e, updateAppointmentStatus s apptId mid dto = (.error e, s) := by
    by_cases h1 : (a.mechanicId != mid) = true
    · refine ⟨.forbidden "No puedes modificar citas que no te han sido asignadas", ?_⟩
      unfold updateAppointmentStatus
      rw [findAppointmentWithRelations_some s apptId a ha]
      simp [h1]
    · refine ⟨.badRequest "Only pending appointments can be modified", ?_⟩
      unfold updateAppointmentStatus
      rw [findAppointmentWithRelations_some s apptId a ha]
      simp [h1, hst]
  obtain ⟨e, he⟩ := hres
  rw [he]
  exact ⟨rfl, by simp⟩

theorem acceptAppointment_nonpending (s : GarageState) (apptId mid : Nat)
    (a : Appointment)
    (ha : s.appointments.find? (fun x => x.id == apptId) = some a)
    (hst : a.status ≠ .pending) :
    (acceptAppointment s apptId mid).2 = s ∧
    ∀ a' s'', acceptAppointment s apptId mid ≠ (.ok a', s'') := by
  have hres : ∃ e, acceptAppointment s apptId mid = (.error e, s) := by
    by_cases h1 : (a.mechanicId != mid) = true
    · refine ⟨.forbidden "You cannot modify appointments that have not been assigned to you", ?_⟩
      unfold acceptAppointment
      rw [findAppointmentWithRelations_some s apptId a ha]
      simp [h1]
    · refine ⟨.badRequest "Only pending appointments can be accepted", ?_⟩
      unfold acceptAppointment
      rw [findAppointmentWithRelations_some s apptId a ha]
      simp [h1, hst]
  obtain ⟨e, he⟩ := hres
  rw [he]
  exact ⟨rfl, by simp⟩

theorem rejectAppointment_nonpending (s : GarageState) (apptId mid : Nat)
    (rdto : RejectAppointmentDto) (a : Appointment)
    (ha : s.appointments.find? (fun x => x.id == apptId) = some a)
    (hst : a.status ≠ .pending) :
    (rejectAppointment s apptId mid rdto).2 = s ∧
    ∀ a' s'', rejectAppointment s apptId mid rdto ≠ (.ok a', s'') := by
  have hres : ∃ e, rejectAppointment s apptId mid rdto = (.error e, s) := by
    by_cases h1 : (a.mechanicId != mid) = true
    · refine ⟨.forbidden "No puedes modificar citas que no te han sido asignadas", ?_⟩
      unfold rejectAppointment
      rw [findAppointmentWithRelations_some s apptId a ha]
      simp [h1]
    · refine ⟨.badRequest "Solo las citas pendientes pueden ser rechazadas", ?_⟩
      unfold rejectAppointment
      rw [findAppointmentWithRelations_some s apptId a ha]
      simp [h1, hst]
  obtain ⟨e, he⟩ := hres
  rw [he]
  exact ⟨rfl, by simp⟩

theorem deleteAppointment_rejected_blocked (s : GarageState) (apptId uid : Nat)
    (a : Appointment)
    (ha : s.appointments.find? (fun x => x.id == apptId) = some a)
    (hst : a.status = .rejected) :
    (deleteAppointment s apptId uid).2 = s ∧
    ∀ s'', deleteAppointment s apptId uid ≠ (.ok (), s'') := by
  have hg : getAppointmentById s apptId = .ok
      { appt := a,
        client := s.users.find? (fun u => u.id == a.clientId),
        mechanic := s.users.find? (fun u => u.id == a.mechanicId),
        vehicle := s.vehicles.find? (fun v => v.id == a.vehicleId),
        schedule := s.schedules.find? (fun sc => sc.id == a.scheduleId) } := by
    unfold getAppointmentById
    rw [findAppointmentWithRelations_some s apptId a ha]
  have hres : ∃ e, deleteAppointment s apptId uid = (.error e, s) := by
    by_cases h1 : (a.clientId != uid) = true
    · refine ⟨.forbidden "No puedes cancelar citas que no te pertenecen", ?_⟩
      unfold deleteAppointment
      rw [hg]
      simp [h1]
    · refine ⟨.badRequest "Solo las citas pendientes o aceptadas pueden ser canceladas", ?_⟩
      unfold deleteAppointment
      rw [hg]
      simp [h1, hst]
  obtain ⟨e, he⟩ := hres
  rw [he]
  exact ⟨rfl, by simp⟩

theorem deleteAppointment_ok_inv (s : GarageState) (id uid : Nat) (s' : GarageState)
    (h : deleteAppointment s id uid = (.ok (), s')) :
    ∃ old, s.appointments.find? (fun x => x.id == id) = some old ∧
      old.clientId = uid ∧ (old.status = .pending ∨ old.status = .accepted) ∧
      (∀ b ∈ s'.appointments, b.id ≠ id) ∧
      (∀ sc ∈ s'.schedules, sc.id = old.scheduleId → old.hour ∈ sc.availableHours) := by
  unfold deleteAppointment at h
  cases hp : s.appointments.find? (fun x => x.id == id) with
  | none =>
    have hg : getAppointmentById s id = .error (.notFound "Cita no encontrada") := by
      unfold getAppointmentById
      rw [findAppointmentWithRelations_none s id hp]
    rw [hg] at h
    exact absurd h (by simp)
  | some aOld =>
    have hg : getAppointmentById s id = .ok
        { appt := aOld,
          client := s.users.find? (fun u => u.id == aOld.clientId),
          mechanic := s.users.find? (fun u => u.id == aOld.mechanicId),
          vehicle := s.vehicles.find? (fun v => v.id == aOld.vehicleId),
          schedule := s.schedules.find? (fun sc => sc.id == aOld.scheduleId) } := by
      unfold getAppointmentById
      rw [findAppointmentWithRelations_some s id aOld hp]
    rw [hg] at h
    simp only [] at h
    split at h
    · exact absurd h (by simp)
    · split at h
      · exact absurd h (by simp)
      · split at h
        · exact absurd h (by simp)
        · rename_i hc1 hc2 x s2 hadd
          simp only [Prod.mk.injEq] at h
          obtain ⟨-, rfl⟩ := h
          refine ⟨aOld, rfl, by simpa using hc1, ?_, ?_, ?_⟩
          · cases hs : aOld.status <;> simp_all
          · have hcomp := addHourToSchedule_ok_components _ _ _ _ hadd
            intro b hb
            rw [hcomp.2.2.1] at hb
            simp only [deleteAppointmentRecord, List.mem_filter] at hb
            simpa using hb.2
          · intro sc hsc hid2
            exact addHourToSchedule_ok_mem _ _ _ _ hadd sc hsc hid2

/-- C5: state-machine invariant: every status-mutating operation
(updateAppointment, updateAppointmentStatus, acceptAppointment,
rejectAppointment) refuses to touch an appointment whose stored status is
not pending (it throws and leaves the state unchanged), so a status only
ever changes out of pending; successful updates start from a pending
appointment (acceptance ending accepted, rejection ending rejected); and
deletion (cancellation) succeeds only from pending or accepted — a
rejected appointment cannot be deleted. -/
theorem c5_state_machine (s : GarageState) :
    (∀ apptId uid role dto a, s.appointments.find? (fun x => x.id == apptId) = some a →
      a.status ≠ .pending →
      (updateAppointment s apptId uid role dto).2 = s ∧
      ∀ a' s'', updateAppointment s apptId uid role dto ≠ (.ok a', s'')) ∧
    (∀ apptId mid dto a, s.appointments.find? (fun x => x.id == apptId) = some a →
      a.status ≠ .pending →
      (updateAppointmentStatus s apptId mid dto).2 = s ∧
      ∀ a' s'', updateAppointmentStatus s apptId mid dto ≠ (.ok a', s'')) ∧
    (∀ apptId mid a, s.appointments.find? (fun x => x.id == apptId) = some a →
      a.status ≠ .pending →
      (acceptAppointment s apptId mid).2 = s ∧
      ∀ a' s'', acceptAppointment s apptId mid ≠ (.ok a', s'')) ∧
    (∀ apptId mid rdto a, s.appointments.find? (fun x => x.id == apptId) = some a →
      a.status ≠ .pending →
      (rejectAppointment s apptId mid rdto).2 = s ∧
      ∀ a' s'', rejectAppointment s apptId mid rdto ≠ (.ok a', s'')) ∧
    (∀ apptId uid role dto a s', updateAppointment s apptId uid role dto = (.ok a, s') →
      ∃ old, s.appointments.find? (fun x => x.id == apptId) = some old ∧
        old.status = .pending) ∧
    (∀ apptId mid a s', acceptAppointment s apptId mid = (.ok a, s') →
      a.status = .accepted ∧
      ∃ old, s.appointments.find? (fun x => x.id == apptId) = some old ∧
        old.status = .pending) ∧
    (∀ apptId mid rdto a s', rejectAppointment s apptId mid rdto = (.ok a, s') →
      a.status = .rejected ∧
      ∃ old, s.appointments.find? (fun x => x.id == apptId) = some old ∧
        old.status = .pending) ∧
    (∀ apptId uid s', deleteAppointment s apptId uid = (.ok (), s') →
      ∃ old, s.appointments.find? (fun x => x.id == apptId) = some old ∧
        (old.status = .pending ∨ old.status = .accepted)) ∧
    (∀ apptId uid a, s.appointments.find? (fun x => x.id == apptId) = some a →
      a.status = .rejected →
      (deleteAppointment s apptId uid).2 = s ∧
      ∀ s'', deleteAppointment s apptId uid ≠ (.ok (), s'')) := by
  refine ⟨?_, ?_, ?_, ?_, ?_, ?_, ?_, ?_, ?_⟩
  · intro apptId uid role dto a ha hst
    exact updateAppointment_nonpending s apptId uid role dto a ha hst
  · intro apptId mid dto a ha hst
    exact updateAppointmentStatus_nonpending s apptId mid dto a ha hst
  · intro apptId mid a ha hst
    exact acceptAppointment_nonpending s apptId mid a ha hst
  · intro apptId mid rdto a ha hst
    exact rejectAppointment_nonpending s apptId mid rdto a ha hst
  · intro apptId uid role dto a s' h
    obtain ⟨old, hfind, hpend, -⟩ := updateAppointment_ok_inv s apptId uid role dto a s' h
    exact ⟨old, hfind, hpend⟩
  · intro apptId mid a s' h
    obtain ⟨hacc, hold, -⟩ := acceptAppointment_ok_effects s apptId mid a s' h
    exact ⟨hacc, hold⟩
  · intro apptId mid rdto a s' h
    obtain ⟨hrej, -, hold, -⟩ := rejectAppointment_ok_effects s apptId mid rdto a s' h
    exact ⟨hrej, hold⟩
  · intro apptId uid s' h
    obtain ⟨old, hfind, -, hstat, -⟩ := deleteAppointment_ok_inv s apptId uid s' h
    exact ⟨old, hfind, hstat⟩
  · intro apptId uid a ha hst
    exact deleteAppointment_rejected_blocked s apptId uid a ha hst

theorem c5_witness :
    (updateAppointment acceptedState 1 2 ROLE.MECHANIC rejectDto).2 = acceptedState ∧
    updateAppointment acceptedState 1 2 ROLE.MECHANIC rejectDto ≠
      (.ok pendingAppt, acceptedState) ∧
    (acceptAppointment rejectedState 1 2).2 = rejectedState ∧
    (deleteAppointment rejectedState 1 3).2 = rejectedState ∧
    deleteAppointment rejectedState 1 3 ≠ (.ok (), rejectedState) :=
  ⟨((c5_state_machine acceptedState).1 1 2 ROLE.MECHANIC rejectDto
      { pendingAppt with status := .accepted } (by decide) (by decide)).1,
   ((c5_state_machine acceptedState).1 1 2 ROLE.MECHANIC rejectDto
      { pendingAppt with status := .accepted } (by decide) (by decide)).2
      pendingAppt acceptedState,
   ((c5_state_machine rejectedState).2.2.1 1 2
      { pendingAppt with status := .rejected, rejectionReason := some "busy" }
      (by decide) (by decide)).1,
   ((c5_state_machine rejectedState).2.2.2.2.2.2.2.2 1 3
      { pendingAppt with status := .rejected, rejectionReason := some "busy" }
      (by decide) (by decide)).1,
   ((c5_state_machine rejectedState).2.2.2.2.2.2.2.2 1 3
      { pendingAppt with status := .rejected, rejectionReason := some "busy" }
      (by decide) (by decide)).2 rejectedState⟩

/-- C8: cancellation (deleteAppointment) requires that the appointment
exists (else NotFound), that the requester is the owning client (else
Forbidden), and that the current status is pending or accepted (a rejected
appointment cannot be cancelled, a state error); when these hold and the
referenced schedule exists, the appointment record is deleted and its hour
is restored to the schedule's available set. -/
theorem c8_delete_cancellation (s : GarageState) (id uid : Nat) :
    (s.appointments.find? (fun x => x.id == id) = none →
      deleteAppointment s id uid = (.error (.notFound "Cita no encontrada"), s)) ∧
    (∀ a, s.appointments.find? (fun x => x.id == id) = some a →
      (a.clientId ≠ uid →
        deleteAppointment s id uid =
          (.error (.forbidden "No puedes cancelar citas que no te pertenecen"), s)) ∧
      (a.clientId = uid → a.status = .rejected →
        deleteAppointment s id uid =
          (.error (.badRequest "Solo las citas pendientes o aceptadas pueden ser canceladas"), s)) ∧
      (a.clientId = uid → (a.status = .pending ∨ a.status = .accepted) →
        ∀ sc0, s.schedules.find? (fun x => x.id == a.scheduleId) = some sc0 →
        ∃ s', deleteAppointment s id uid = (.ok (), s') ∧
          (∀ b ∈ s'.appointments, b.id ≠ id) ∧
          (∀ sc ∈ s'.schedules, sc.id = a.scheduleId → a.hour ∈ sc.availableHours))) := by
  constructor
  · intro hnone
    have hg : getAppointmentById s id = .error (.notFound "Cita no encontrada") := by
      unfold getAppointmentById
      rw [findAppointmentWithRelations_none s id hnone]
    unfold deleteAppointment
    rw [hg]
  · intro a ha
    have hg : getAppointmentById s id = .ok
        { appt := a,
          client := s.users.find? (fun u => u.id == a.clientId),
          mechanic := s.users.find? (fun u => u.id == a.mechanicId),
          vehicle := s.vehicles.find? (fun v => v.id == a.vehicleId),
          schedule := s.schedules.find? (fun sc => sc.id == a.scheduleId) } := by
      unfold getAppointmentById
      rw [findAppointmentWithRelations_some s id a ha]
    refine ⟨?_, ?_, ?_⟩
    · intro hne
      unfold deleteAppointment
      rw [hg]
      simp [hne]
    · intro heq hst
      unfold deleteAppointment
      rw [hg]
      simp [heq, hst]
    · intro heq hstat sc0 hsc0
      have hcond1 : (a.clientId != uid) = false := by simp [heq]
      have hcond2 : (a.status != AppointmentStatus.pending &&
          a.status != AppointmentStatus.accepted) = false := by
        rcases hstat with h | h <;> simp [h]
      have hadd := addHourToSchedule_ok_of_find (deleteAppointmentRecord s id)
        a.scheduleId a.hour sc0 (by simpa [deleteAppointmentRecord] using hsc0)
      cases hres : addHourToSchedule (deleteAppointmentRecord s id) a.scheduleId a.hour with
      | error e => exact absurd (hadd.symm.trans hres) (by simp)
      | ok s2 =>
        refine ⟨s2, ?_, ?_, ?_⟩
        · unfold deleteAppointment
          rw [hg]
          simp only [hcond1, hcond2, Bool.false_eq_true, if_false, hres]
        · intro b hb
          have hcomp := addHourToSchedule_ok_components _ _ _ _ hres
          rw [hcomp.2.2.1] at hb
          simp only [deleteAppointmentRecord, List.mem_filter] at hb
          simpa using hb.2
        · intro sc hsc hid2
          exact addHourToSchedule_ok_mem _ _ _ _ hres sc hsc hid2

theorem c8_witness :
    deleteAppointment bookedState 99 3 =
      (.error (.notFound "Cita no encontrada"), bookedState) ∧
    deleteAppointment bookedState 1 7 =
      (.error (.forbidden "No puedes cancelar citas que no te pertenecen"), bookedState) ∧
    deleteAppointment rejectedState 1 3 =
      (.error (.badRequest "Solo las citas pendientes o aceptadas pueden ser canceladas"),
       rejectedState) ∧
    (deleteAppointment bookedState 1 3).1 = .ok () :=
  ⟨(c8_delete_cancellation bookedState 99 3).1 (by decide),
   ((c8_delete_cancellation bookedState 1 7).2 pendingAppt (by decide)).1 (by decide),
   ((c8_delete_cancellation rejectedState 1 3).2
      { pendingAppt with status := .rejected, rejectionReason := some "busy" }
      (by decide)).2.1 rfl rfl,
   (by
     obtain ⟨s', heq, -, -⟩ := ((c8_delete_cancellation bookedState 1 3).2 pendingAppt
       (by decide)).2.2 rfl (Or.inl rfl) bookedSchedule (by decide)
     rw [heq])⟩

/-- C2 counterexample: when the target user does not exist, createAppointment
throws NotFoundException (from UsersService.findByIdOrThrow), not the
validation (BadRequest) error the claim asserts for that case. -/
theorem c2_counterexample :
    createAppointment emptyUsersState 3 createDto =
      (.error (.notFound "User with ID 2 not found"), emptyUsersState) := by
  decide

/-- C2 amended: createAppointment validates fail-fast in this order, each
failure a distinct error: (1) target user missing gives NotFound, existing
with role other than mechanic gives a validation error; (2) vehicle
missing gives NotFound, vehicle not owned by the requesting client gives
an authorization error; (2b) requesting client missing gives NotFound;
(3) schedule missing gives NotFound, requested hour absent from the
schedule's available hours gives a validation error. When an earlier check
fails, the later checks' errors are never produced. -/
theorem c2_create_validation_order (s : GarageState) (cid : Nat)
    (dto : CreateAppointmentDto) :
    (s.users.find? (fun u => u.id == dto.mechanicId) = none →
      createAppointment s cid dto =
        (.error (.notFound ("User with ID " ++ toString dto.mechanicId ++ " not found")), s)) ∧
    (∀ m, s.users.find? (fun u => u.id == dto.mechanicId) = some m →
      (m.role ≠ ROLE.MECHANIC →
        createAppointment s cid dto =
          (.error (.badRequest "El usuario seleccionado no es un mecánico"), s)) ∧
      (m.role = ROLE.MECHANIC →
        (s.vehicles.find? (fun v => v.id == dto.vehicleId) = none →
          createAppointment s cid dto =
            (.error (.notFound ("Vehicle with ID " ++ toString dto.vehicleId ++ " not found")), s)) ∧
        (∀ v, s.vehicles.find? (fun v => v.id == dto.vehicleId) = some v →
          (v.clientId ≠ cid →
            createAppointment s cid dto =
              (.error (.forbidden "No puedes agendar citas para vehículos que no te pertenecen"), s)) ∧
          (v.clientId = cid →
            (s.users.find? (fun u => u.id == cid) = none →
              createAppointment s cid dto =
                (.error (.notFound ("User with ID " ++ toString cid ++ " not found")), s)) ∧
            (∀ c, s.users.find? (fun u => u.id == cid) = some c →
              (s.schedules.find? (fun x => x.id == dto.scheduleId) = none →
                createAppointment s cid dto =
                  (.error (.notFound "Horario no encontrado"), s)) ∧
              (∀ sch, s.schedules.find? (fun x => x.id == dto.scheduleId) = some sch →
                dto.hour ∉ sch.availableHours →
                createAppointment s cid dto =
                  (.error (.badRequest "La hora seleccionada no está disponible"), s))))))) := by
  constructor
  · intro hnone
    have h1 : findByIdOrThrow s dto.mechanicId =
        .error (.notFound ("User with ID " ++ toString dto.mechanicId ++ " not found")) := by
      simp [findByIdOrThrow, hnone]
    unfold createAppointment
    rw [h1]
  · intro m hm
    have h1 : findByIdOrThrow s dto.mechanicId = .ok m := by
      simp [findByIdOrThrow, hm]
    constructor
    · intro hrole
      unfold createAppointment
      rw [h1]
      simp [hrole]
    · intro hrole
      constructor
      · intro hvnone
        have h2 : vehiclesFindOne s dto.vehicleId =
            .error (.notFound ("Vehicle with ID " ++ toString dto.vehicleId ++ " not found")) := by
          simp [vehiclesFindOne, hvnone]
        unfold createAppointment
        rw [h1]
        simp [hrole, h2]
      · intro v hv
        have h2 : vehiclesFindOne s dto.vehicleId = .ok v := by
          simp [vehiclesFindOne, hv]
        constructor
        · intro howner
          unfold createAppointment
          rw [h1]
          simp [hrole, h2, howner]
        · intro howner
          constructor
          · intro hcnone
            have h3 : findByIdOrThrow s cid =
                .error (.notFound ("User with ID " ++ toString cid ++ " not found")) := by
              simp [findByIdOrThrow, hcnone]
            unfold createAppointment
            rw [h1]
            simp [hrole, h2, howner, h3]
          · intro c hc
            have h3 : findByIdOrThrow s cid = .ok c := by
              simp [findByIdOrThrow, hc]
            constructor
            · intro hsnone
              have h4 : getScheduleById s dto.scheduleId =
                  .error (.notFound "Horario no encontrado") := by
                simp [getScheduleById, hsnone]
              unfold createAppointment
              rw [h1]
              simp [hrole, h2, howner, h3, h4]
            · intro sch hsch hmem
              have h4 : getScheduleById s dto.scheduleId = .ok sch := by
                simp [getScheduleById, hsch]
              unfold createAppointment
              rw [h1]
              simp [hrole, h2, howner, h3, h4, hmem]

theorem c2_witness :
    createAppointment bookedState 3 { createDto with mechanicId := 3 } =
      (.error (.badRequest "El usuario seleccionado no es un mecánico"), bookedState) ∧
    createAppointment bookedState 7 createDto =
      (.error (.forbidden "No puedes agendar citas para vehículos que no te pertenecen"),
       bookedState) ∧
    createAppointment bookedState 3 createDto =
      (.error (.badRequest "La hora seleccionada no está disponible"), bookedState) :=
  ⟨((c2_create_validation_order bookedState 3 { createDto with mechanicId := 3 }).2
      clientUser (by decide)).1 (by decide),
   (((((c2_create_validation_order bookedState 7 createDto).2
      mechUser (by decide)).2 rfl).2 fixtureVehicle (by decide)).1 (by decide)),
   (((((((c2_create_validation_order bookedState 3 createDto).2
      mechUser (by decide)).2 rfl).2 fixtureVehicle (by decide)).2 rfl).2
      clientUser (by decide)).2 bookedSchedule (by decide)) (by decide)⟩

/-- C3: for every successful createAppointment call, the new appointment is
persisted with status pending and all the request's fields; the requested
hour is removed from the schedule's available set; a notification to the
mechanic tagged with the new appointment's id is enqueued; the three
writes happen in exactly that order (persist, remove hour, notify); and
the returned appointment carries the resolved client, mechanic, vehicle
and schedule references. -/
theorem c3_create_success_effects (s : GarageState) (cid : Nat)
    (dto : CreateAppointmentDto) (p : PopulatedAppointment) (s' : GarageState)
    (h : createAppointment s cid dto = (.ok p, s')) :
    p.appt.status = .pending ∧ p.appt.id = s.nextAppointmentId ∧
    p.appt.clientId = cid ∧ p.appt.mechanicId = dto.mechanicId ∧
    p.appt.vehicleId = dto.vehicleId ∧ p.appt.scheduleId = dto.scheduleId ∧
    p.appt.date = dto.date ∧ p.appt.hour = dto.hour ∧
    p.appt.description = dto.description ∧
    s'.appointments = s.appointments ++ [p.appt] ∧
    (∀ sc ∈ s'.schedules, sc.id = dto.scheduleId → dto.hour ∉ sc.availableHours) ∧
    (∃ n, s'.notifications = s.notifications ++ [n] ∧ n.userId = dto.mechanicId ∧
      n.metadataAppointmentId = p.appt.id ∧
      s'.events = s.events ++ [.savedAppointment p.appt,
        .removedHour dto.scheduleId dto.hour, .createdNotification n]) ∧
    (∃ c, findByIdOrThrow s cid = .ok c ∧ p.client = some c) ∧
    (∃ m, findByIdOrThrow s dto.mechanicId = .ok m ∧ p.mechanic = some m) ∧
    (∃ v, vehiclesFindOne s dto.vehicleId = .ok v ∧ p.vehicle = some v) ∧
    (∃ sch, getScheduleById s dto.scheduleId = .ok sch ∧ p.schedule = some sch) := by
  unfold createAppointment at h
  simp only [saveNewAppointment] at h
  split at h
  · exact absurd h (by simp)
  · rename_i xm mechanic hmeq
    split at h
    · exact absurd h (by simp)
    · rename_i hrole
      split at h
      · exact absurd h (by simp)
      · rename_i xv vehicle hveq
        split at h
        · exact absurd h (by simp)
        · rename_i howner
          split at h
          · exact absurd h (by simp)
          · rename_i xc client hceq
            split at h
            · exact absurd h (by simp)
            · rename_i xs schedule hseq
              split at h
              · exact absurd h (by simp)
              · rename_i hcont
                split at h
                · exact absurd h (by simp)
                · rename_i xr s2 hrem
                  have hcomp := removeHourFromSchedule_ok_components _ _ _ _ hrem
                  simp only [Prod.mk.injEq, Except.ok.injEq] at h
                  obtain ⟨rfl, rfl⟩ := h
                  refine ⟨rfl, rfl, rfl, rfl, rfl, rfl, rfl, rfl, rfl, ?_, ?_, ?_,
                    ⟨client, hceq, rfl⟩, ⟨mechanic, hmeq, rfl⟩,
                    ⟨vehicle, hveq, rfl⟩, ⟨schedule, hseq, rfl⟩⟩
                  · simp [createNotification, hcomp.2.2.1]
                  · intro sc hsc hid2
                    refine removeHourFromSchedule_ok_not_mem _ _ _ _ hrem sc ?_ hid2
                    simpa [createNotification] using hsc
                  · refine ⟨{ userId := dto.mechanicId,
                              type := NOTIFICATION_TYPE.APPOINTMENT_CREATED,
                              title := "Nueva Cita Agendada",
                              message := "El cliente ha agendado una cita para el vehículo " ++
                                vehicle.licensePlate ++ " el " ++ dto.date ++ " a las " ++ dto.hour,
                              metadataAppointmentId := s.nextAppointmentId }, ?_, rfl, rfl, ?_⟩
                    · simp [createNotification, hcomp.2.2.2.1]
                    · simp [createNotification, hcomp.2.2.2.2.2]

theorem c3_witness :
    pendingAppt.status = .pending ∧
    (createAppointment baseState 3 createDto).2.appointments =
      baseState.appointments ++ [pendingAppt] := by
  have h := c3_create_success_effects baseState 3 createDto
    { appt := pendingAppt, client := some clientUser, mechanic := some mechUser,
      vehicle := some fixtureVehicle, schedule := some openSchedule }
    (createAppointment baseState 3 createDto).2 (by decide)
  exact ⟨h.1, h.2.2.2.2.2.2.2.2.2.1⟩

theorem buildWhere_eq (uid : Nat) (role : String) (st : Option String)
    (cid mid : Option Nat) (d : Option String) :
    buildWhere uid role st cid mid d =
      { clientId := if role == ROLE.CLIENT then some uid
          else if natTruthy cid then cid else none,
        mechanicId := if role == ROLE.MECHANIC then some uid
          else if natTruthy mid then mid else none,
        status := if strTruthy st then st else none,
        date := if strTruthy d then d else none } := by
  unfold buildWhere
  by_cases h1 : (role == ROLE.CLIENT) = true
  · have hr : role = ROLE.CLIENT := by simpa using h1
    have h2 : (role == ROLE.MECHANIC) = false := by
      simp [hr, ROLE.CLIENT, ROLE.MECHANIC]
    simp [h1, h2]
    all_goals first
      | (split_ifs <;> simp_all)
      | simp_all
  · have hb1 : (role == ROLE.CLIENT) = false := by simpa using h1
    by_cases h2 : (role == ROLE.MECHANIC) = true
    · simp [hb1, h2]
      all_goals first
        | (split_ifs <;> simp_all)
        | simp_all
    · have hb2 : (role == ROLE.MECHANIC) = false := by simpa using h2
      simp [hb1, hb2]
      all_goals first
        | (split_ifs <;> simp_all)
        | simp_all

theorem matchesWhere_spec (w : WhereOpts) (a : Appointment) :
    matchesWhere w a = true ↔
      (∀ c, w.clientId = some c → a.clientId = c) ∧
      (∀ m, w.mechanicId = some m → a.mechanicId = m) ∧
      (∀ stv, w.status = some stv → statusStr a.status = stv) ∧
      (∀ dv, w.date = some dv → a.date = dv) := by
  obtain ⟨c, m, stv, dv⟩ := w
  cases c <;> cases m <;> cases stv <;> cases dv <;> simp [matchesWhere, and_assoc]

theorem mem_findAll_iff (s : GarageState) (uid : Nat) (role : String) (st : Option String)
    (cid mid : Option Nat) (d : Option String) (a : Appointment) :
    a ∈ findAll s uid role st cid mid d ↔
      a ∈ s.appointments ∧
      matchesWhere (buildWhere uid role st cid mid d) a = true := by
  simp [findAll, List.mem_filter]

theorem strFilterClause (d : Option String) (P : String → Prop) :
    (∀ dv, (if strTruthy d then d else none) = some dv → P dv) ↔
    (∀ dv, d = some dv → dv ≠ "" → P dv) := by
  cases d with
  | none => simp [strTruthy]
  | some v => by_cases hv : v = "" <;> simp [strTruthy, hv]

theorem mem_findAll_spec (s : GarageState) (uid : Nat) (role : String) (st : Option String)
    (cid mid : Option Nat) (d : Option String) (a : Appointment) :
    a ∈ findAll s uid role st cid mid d ↔
      a ∈ s.appointments ∧
      (∀ c, (if role == ROLE.CLIENT then some uid
             else if natTruthy cid then cid else none) = some c → a.clientId = c) ∧
      (∀ m, (if role == ROLE.MECHANIC then some uid
             else if natTruthy mid then mid else none) = some m → a.mechanicId = m) ∧
      (∀ stv, st = some stv → stv ≠ "" → statusStr a.status = stv) ∧
      (∀ dv, d = some dv → dv ≠ "" → a.date = dv) := by
  rw [mem_findAll_iff, matchesWhere_spec, buildWhere_eq]
  refine and_congr Iff.rfl (and_congr ?_ (and_congr ?_ (and_congr ?_ ?_)))
  · exact Iff.rfl
  · exact Iff.rfl
  · exact strFilterClause st (fun stv => statusStr a.status = stv)
  · exact strFilterClause d (fun dv => a.date = dv)

/-- C6 counterexample: a mechanic requester supplies the explicit filter
clientId=0. The requester's role does not pin clientId, yet the filter is
not applied (JavaScript truthiness discards 0): the result still contains
an appointment whose clientId is 3, not 0. -/
theorem c6_counterexample :
    findAll bookedState 2 ROLE.MECHANIC none (some 0) none none = [pendingAppt] ∧
    pendingAppt.clientId = 3 := by
  decide

/-- C6 amended: a client requester only ever receives appointments whose
clientId equals their own id and a supplied clientId filter cannot change
the result; a mechanic requester only ever receives appointments whose
mechanicId equals their own id and a supplied mechanicId filter cannot
change the result; a supplied NONZERO clientId (resp. mechanicId) filter
is applied exactly when the requester's role does not pin that field — a
zero filter is discarded by JavaScript truthiness. -/
theorem c6_findAll_scoping (s : GarageState) (uid : Nat) (role : String)
    (st : Option String) (cid mid : Option Nat) (d : Option String) :
    (role = ROLE.CLIENT → ∀ a ∈ findAll s uid role st cid mid d, a.clientId = uid) ∧
    (role = ROLE.MECHANIC → ∀ a ∈ findAll s uid role st cid mid d, a.mechanicId = uid) ∧
    (role = ROLE.CLIENT → ∀ cid2,
      findAll s uid role st cid mid d = findAll s uid role st cid2 mid d) ∧
    (role = ROLE.MECHANIC → ∀ mid2,
      findAll s uid role st cid mid d = findAll s uid role st cid mid2 d) ∧
    (role ≠ ROLE.CLIENT → ∀ c, cid = some c → c ≠ 0 →
      ∀ a ∈ findAll s uid role st cid mid d, a.clientId = c) ∧
    (role ≠ ROLE.MECHANIC → ∀ m, mid = some m → m ≠ 0 →
      ∀ a ∈ findAll s uid role st cid mid d, a.mechanicId = m) := by
  refine ⟨?_, ?_, ?_, ?_, ?_, ?_⟩
  · intro hr a ha
    rw [mem_findAll_spec] at ha
    exact ha.2.1 uid (by simp [hr])
  · intro hr a ha
    rw [mem_findAll_spec] at ha
    exact ha.2.2.1 uid (by simp [hr])
  · intro hr cid2
    have hbw : buildWhere uid role st cid mid d = buildWhere uid role st cid2 mid d := by
      rw [buildWhere_eq, buildWhere_eq]
      simp [hr]
    unfold findAll
    rw [hbw]
  · intro hr mid2
    have hbw : buildWhere uid role st cid mid d = buildWhere uid role st cid mid2 d := by
      rw [buildWhere_eq, buildWhere_eq]
      simp [hr]
    unfold findAll
    rw [hbw]
  · intro hr c hc hc0 a ha
    rw [mem_findAll_spec] at ha
    have hb : (role == ROLE.CLIENT) = false := beq_eq_false_iff_ne.mpr hr
    exact ha.2.1 c (by simp [hb, hc, natTruthy, hc0])
  · intro hr m hm hm0 a ha
    rw [mem_findAll_spec] at ha
    have hb : (role == ROLE.MECHANIC) = false := beq_eq_false_iff_ne.mpr hr
    exact ha.2.2.1 m (by simp [hb, hm, natTruthy, hm0])

theorem c6_witness :
    pendingAppt.clientId = 3 ∧
    findAll bookedState 3 ROLE.CLIENT none (some 9) none none =
      findAll bookedState 3 ROLE.CLIENT none (some 4) none none ∧
    pendingAppt.mechanicId = 2 :=
  ⟨(c6_findAll_scoping bookedState 3 ROLE.CLIENT none none none none).1 rfl
     pendingAppt (by decide),
   (c6_findAll_scoping bookedState 3 ROLE.CLIENT none (some 9) none none).2.2.1 rfl (some 4),
   (c6_findAll_scoping bookedState 3 ROLE.CLIENT none none (some 2) none).2.2.2.2.2
     (fun h => absurd h (by decide)) 2 rfl (by decide) pendingAppt (by decide)⟩

/-- C7 counterexample: the listing is requested with the explicit status
filter "" (an empty but supplied status). Applied verbatim as an equality
filter it would match no appointment (no status renders as ""), yet the
result contains the accepted appointment: the empty-string filter is
discarded by JavaScript truthiness, contradicting "applied verbatim when
supplied". -/
theorem c7_counterexample :
    findAll acceptedState 2 ROLE.MECHANIC (some "") none none none =
      [{ pendingAppt with status := .accepted }] ∧
    statusStr ({ pendingAppt with status := .accepted } : Appointment).status =
      "accepted" := by
  decide

/-- C7 amended: when no status filter is supplied the result is constrained
only by scope and date — appointments of every status are eligible (no
implicit pending-only default); a supplied NON-EMPTY status filter is
applied as a verbatim equality filter on the status string, and a supplied
non-empty date filter as a verbatim equality filter on the date (an
empty-string filter is discarded by JavaScript truthiness); and the
results are always sorted by date ascending, then hour ascending. -/
theorem c7_findAll_filters (s : GarageState) (uid : Nat) (role : String)
    (cid mid : Option Nat) :
    (∀ d a, a ∈ findAll s uid role none cid mid d ↔
      a ∈ s.appointments ∧
      (∀ c, (if role == ROLE.CLIENT then some uid
             else if natTruthy cid then cid else none) = some c → a.clientId = c) ∧
      (∀ m, (if role == ROLE.MECHANIC then some uid
             else if natTruthy mid then mid else none) = some m → a.mechanicId = m) ∧
      (∀ dv, d = some dv → dv ≠ "" → a.date = dv)) ∧
    (∀ stv, stv ≠ "" → ∀ d a, a ∈ findAll s uid role (some stv) cid mid d ↔
      a ∈ s.appointments ∧
      (∀ c, (if role == ROLE.CLIENT then some uid
             else if natTruthy cid then cid else none) = some c → a.clientId = c) ∧
      (∀ m, (if role == ROLE.MECHANIC then some uid
             else if natTruthy mid then mid else none) = some m → a.mechanicId = m) ∧
      statusStr a.status = stv ∧
      (∀ dv, d = some dv → dv ≠ "" → a.date = dv)) ∧
    (∀ st d, List.Sorted appointmentOrder (findAll s uid role st cid mid d)) := by
  refine ⟨?_, ?_, ?_⟩
  · intro d a
    constructor
    · intro ha
      obtain ⟨h1, h2, h3, -, h5⟩ := (mem_findAll_spec s uid role none cid mid d a).mp ha
      exact ⟨h1, h2, h3, h5⟩
    · rintro ⟨h1, h2, h3, h5⟩
      exact (mem_findAll_spec s uid role none cid mid d a).mpr
        ⟨h1, h2, h3, by simp, h5⟩
  · intro stv hst d a
    constructor
    · intro ha
      obtain ⟨h1, h2, h3, h4, h5⟩ :=
        (mem_findAll_spec s uid role (some stv) cid mid d a).mp ha
      exact ⟨h1, h2, h3, h4 stv rfl hst, h5⟩
    · rintro ⟨h1, h2, h3, h4, h5⟩
      refine (mem_findAll_spec s uid role (some stv) cid mid d a).mpr
        ⟨h1, h2, h3, ?_, h5⟩
      rintro v hv -
      obtain rfl : stv = v := by simpa using hv
      exact h4
  · intro st d
    unfold findAll
    exact List.sorted_insertionSort appointmentOrder _

theorem c7_witness :
    ({ pendingAppt with status := .accepted } : Appointment) ∈
      findAll acceptedState 2 ROLE.MECHANIC (some "accepted") none none none ∧
    List.Sorted appointmentOrder
      (findAll bookedState 2 ROLE.MECHANIC none none none none) := by
  constructor
  · refine ((c7_findAll_filters acceptedState 2 ROLE.MECHANIC none none).2.1 "accepted"
      (by decide) none _).mpr ⟨by decide, ?_, ?_, by decide, ?_⟩
    · intro c hc
      rw [show (ROLE.MECHANIC == ROLE.CLIENT) = false from by decide] at hc
      simp [natTruthy] at hc
    · intro m hm
      simp at hm
      rcases hm with rfl
      decide
    · intro dv hdv
      simp at hdv
  · exact (c7_findAll_filters bookedState 2 ROLE.MECHANIC none none).2.2 none none
